import Mathlib

/-!
Verification of the imajin-events ticket-inventory engine.

This file gives a shallow embedding of the repository's data model and of the
route handlers the claims are about, and proves (or refutes) the claimed
properties.  Embedded sources:

* `src/src/db/schema.ts` — the `ticket_types`, `tickets`, `ticket_transfers`
  and `ticket_queue` tables (rows are structures; SQL `NULL` is `Option`;
  timestamps are epoch milliseconds as `Nat`).
* `src/app/api/events/[id]/hold/route.ts` — `POST` (create a hold) and
  `DELETE` (release a hold).
* `src/app/api/events/[id]/queue/route.ts` — `GET` (report position),
  `POST` (join), `DELETE` (leave).
* `src/app/api/events/[id]/tiers/route.ts` — `PUT` (append-only tier update).
* `src/app/api/checkout/route.ts` — availability pre-check (read-only).
* the payment webhook's `handleCheckoutCompleted` (ticket mint).

The embeddings model one request executing to completion against a database
snapshot (lists of rows); randomly generated ids and `Date.now()` readings are
passed as parameters.  JavaScript quirks that affect behaviour are preserved:
truthiness of `0`/`null`, `parseInt(x) || 1`, first-occurrence
`String.replace`, SQL `NULL` propagation in `sold = sold + q`.
-/

/-- A row of the `tickets` table (`src/src/db/schema.ts`).  Columns not read by
any embedded handler (`purchasedAt`, `usedAt`, `metadata`, `createdAt`) are
omitted. -/
structure TicketRow where
  id : String
  eventId : String
  ticketTypeId : String
  ownerDid : Option String
  originalOwnerDid : Option String
  pricePaid : Option Int
  currency : Option String
  paymentId : Option String
  status : String
  heldBy : Option String
  heldUntil : Option Nat
  signature : Option String
deriving Repr, DecidableEq

/-- A row of the `ticket_types` table (a tier).  `quantity = none` is the
SQL `NULL` meaning "unlimited"; `sold` is nullable with default `0`. -/
structure TicketTypeRow where
  id : String
  eventId : String
  name : String
  description : Option String
  price : Int
  currency : String
  quantity : Option Int
  sold : Option Int
  perks : List String
deriving Repr, DecidableEq

/-- The columns of the `events` table read by the embedded handlers. -/
structure EventRow where
  id : String
  did : String
deriving Repr, DecidableEq

/-- A row of the `ticket_queue` table. -/
structure QueueRow where
  id : String
  ticketTypeId : String
  did : String
  position : Int
  status : String
deriving Repr, DecidableEq

/-- `ticketType.sold || 0` — the handlers default a NULL `sold` to 0. -/
def soldVal (tier : TicketTypeRow) : Int :=
  tier.sold.getD 0

/-- JS truthiness of the `quantity` column: both `null` and `0` are falsy
(`ticketType.quantity ? … : Infinity` and `if (ticketType.quantity && …)`). -/
def quantityTruthy (tier : TicketTypeRow) : Bool :=
  match tier.quantity with
  | some q => decide (q ≠ 0)
  | none => false

/-- The `WHERE` clause of the hold route's existing-hold lookup: rows of this
tier held by this identity with status `held` (expiry is not consulted). -/
def isHeldRowFor (tid identity : String) (r : TicketRow) : Bool :=
  r.ticketTypeId == tid && r.heldBy == some identity && r.status == "held"

/-- `lt(tickets.heldUntil, new Date())`: strictly past expiry; a NULL
`heldUntil` never satisfies the SQL comparison. -/
def expiredAt (now : Nat) (r : TicketRow) : Bool :=
  match r.heldUntil with
  | some u => decide (u < now)
  | none => false

/-- The per-row effect of the hold route's expired-hold sweep: a held row of
the tier whose `heldUntil` is strictly past becomes `available` with
`heldBy`/`heldUntil` cleared; every other row is untouched. -/
def sweepRow (now : Nat) (tid : String) (r : TicketRow) : TicketRow :=
  if r.ticketTypeId == tid && r.status == "held" && expiredAt now r then
    { r with status := "available", heldBy := none, heldUntil := none }
  else r

/-- The hold route's `UPDATE … WHERE ticketTypeId = … AND status = 'held' AND
heldUntil < now` applied to the whole table. -/
def sweepExpired (now : Nat) (tid : String) (tks : List TicketRow) : List TicketRow :=
  tks.map (sweepRow now tid)

/-- The hold route's `holds` query: number of rows of the tier in status
`held` (`(tks.filter …).length` in the source; counted with `countP`). -/
def heldCount (tid : String) (tks : List TicketRow) : Nat :=
  tks.countP (fun r => r.ticketTypeId == tid && r.status == "held")

/-- Rows of the tier in status `held` whose `heldUntil` is not strictly past:
the holds that remain after the sweep. -/
def activeHeldCount (now : Nat) (tid : String) (tks : List TicketRow) : Nat :=
  tks.countP (fun r => r.ticketTypeId == tid && r.status == "held" && !expiredAt now r)

/-- The row inserted by a successful `POST /api/events/[id]/hold`. -/
def newHoldRow (tier : TicketTypeRow) (identity newId : String) (holdUntil : Nat) : TicketRow :=
  { id := newId, eventId := tier.eventId, ticketTypeId := tier.id,
    ownerDid := none, originalOwnerDid := none, pricePaid := none,
    currency := none, paymentId := none, status := "held",
    heldBy := some identity, heldUntil := some holdUntil, signature := none }

/-- Outcome of `POST /api/events/[id]/hold` (after the tier was found). -/
inductive HoldResult where
  | alreadyHeld (existing : TicketRow)
  | noAvailability (queuePosition : Nat)
  | created (ticket : TicketRow)
deriving Repr, DecidableEq

/-- The hold route's rejection test `ticketType.quantity && holds.length >=
available`, where `available = quantity ? quantity - (sold || 0) : Infinity`
and `holds` counts the tier's `held` rows after the expired-hold sweep.  A
falsy `quantity` (NULL or `0`) makes `available` infinite and the whole test
false. -/
def availabilityReject (now : Nat) (tier : TicketTypeRow) (tks : List TicketRow) : Bool :=
  quantityTruthy tier &&
    decide (tier.quantity.getD 0 - soldVal tier ≤
      (heldCount tier.id (sweepExpired now tier.id tks) : Int))

/-- `POST /api/events/[id]/hold` (`src/app/api/events/[id]/hold/route.ts`),
for a tier that exists and belongs to the event.  In source order: reject with
409 if the identity already has a `held` row for the tier; sweep expired holds
of the tier; reject with 409 on `availabilityReject`; otherwise insert the new
held row.  `now` is `Date.now()`, `newId` the generated ticket id,
`holdUntil` the computed expiry. -/
def createHold (now : Nat) (identity : String) (tier : TicketTypeRow)
    (tks : List TicketRow) (newId : String) (holdUntil : Nat) :
    HoldResult × List TicketRow :=
  match tks.find? (isHeldRowFor tier.id identity) with
  | some existing => (.alreadyHeld existing, tks)
  | none =>
    if availabilityReject now tier tks then
      (.noAvailability (heldCount tier.id (sweepExpired now tier.id tks) + 1),
       sweepExpired now tier.id tks)
    else
      (.created (newHoldRow tier identity newId holdUntil),
       sweepExpired now tier.id tks ++ [newHoldRow tier identity newId holdUntil])

/-- Outcome of `DELETE /api/events/[id]/hold`. -/
inductive ReleaseResult where
  | notFoundOrNotOwner
  | released
deriving Repr, DecidableEq

/-- `DELETE /api/events/[id]/hold`: find a row with the given id held by the
caller in status `held`; 404 if absent, otherwise delete the row by id. -/
def releaseHold (identity ticketId : String) (tks : List TicketRow) :
    ReleaseResult × List TicketRow :=
  match tks.find? (fun r => r.id == ticketId && r.heldBy == some identity && r.status == "held") with
  | none => (.notFoundOrNotOwner, tks)
  | some _ => (.released, tks.filter (fun r => !(r.id == ticketId)))

/-- Outcome of the availability pre-check in `POST /api/checkout`. -/
inductive CheckoutDecision where
  | insufficient (available : Int)
  | proceed (quantity : Int)
deriving Repr, DecidableEq

/-- The availability pre-check of `POST /api/checkout`
(`src/app/api/checkout/route.ts`), for an event and tier that exist:
`quantity = body.quantity || 1`; if the tier's `quantity` column is non-NULL
and `quantity - (sold ?? 0) < requested`, reject, else proceed to the external
pay service.  The route performs no insert or update, which the embedding
makes explicit by returning the tables unchanged. -/
def checkout (tier : TicketTypeRow) (tks : List TicketRow) (quantityReq : Option Int) :
    CheckoutDecision × TicketTypeRow × List TicketRow :=
  let quantity : Int :=
    match quantityReq with
    | none => 1
    | some 0 => 1
    | some n => n
  match tier.quantity with
  | some q =>
    if q - soldVal tier < quantity then (.insufficient (q - soldVal tier), tier, tks)
    else (.proceed quantity, tier, tks)
  | none => (.proceed quantity, tier, tks)

/-- Outcome of `POST /api/events/[id]/queue` (join). -/
inductive JoinResult where
  | alreadyQueued (position : Int)
  | joined (entry : QueueRow)
deriving Repr, DecidableEq

/-- The join handler's `max(ticketQueue.position)` over the rows of the tier
(any status), with SQL `NULL` (empty tier) defaulted to `0` by the source's
`maxPos?.maxPosition || 0` (a maximum of exactly `0` is mapped to `0` by the
`|| 0` as well, which is the identity). -/
def maxPositionFor (tid : String) (rows : List QueueRow) : Int :=
  match (rows.filter (fun r => r.ticketTypeId == tid)).map (fun r => r.position) with
  | [] => 0
  | p :: ps => ps.foldl max p

/-- The queue handlers' lookup of the caller's waiting entry for the tier. -/
def findWaiting (identity tid : String) (rows : List QueueRow) : Option QueueRow :=
  rows.find? (fun r => r.ticketTypeId == tid && r.did == identity && r.status == "waiting")

/-- `POST /api/events/[id]/queue` (`src/app/api/events/[id]/queue/route.ts`),
for a tier that exists: 409 if the caller already has a waiting entry;
otherwise insert an entry with `position = (max position over the tier's
current rows || 0) + 1` and status `waiting`. -/
def joinQueue (identity tid newId : String) (rows : List QueueRow) :
    JoinResult × List QueueRow :=
  match findWaiting identity tid rows with
  | some existing => (.alreadyQueued existing.position, rows)
  | none =>
    let entry : QueueRow :=
      { id := newId, ticketTypeId := tid, did := identity,
        position := maxPositionFor tid rows + 1, status := "waiting" }
    (.joined entry, rows ++ [entry])

/-- Outcome of `DELETE /api/events/[id]/queue` (leave). -/
inductive LeaveResult where
  | notQueued
  | leftQueue
deriving Repr, DecidableEq

/-- `DELETE /api/events/[id]/queue`: delete the caller's waiting rows for the
tier; 404 if the delete touched no row. -/
def leaveQueue (identity tid : String) (rows : List QueueRow) :
    LeaveResult × List QueueRow :=
  let remaining := rows.filter
    (fun r => !(r.ticketTypeId == tid && r.did == identity && r.status == "waiting"))
  if remaining.length == rows.length then (.notQueued, rows)
  else (.leftQueue, remaining)

/-- Outcome of `GET /api/events/[id]/queue` (position report). -/
inductive PositionReport where
  | notInQueue
  | inQueue (position : Nat) (totalAhead : Nat)
deriving Repr, DecidableEq

/-- `GET /api/events/[id]/queue`: find the caller's waiting entry; report
`position = (number of waiting entries of the tier with strictly smaller
stored position) + 1` and `totalAhead = position - 1`. -/
def queuePositionOf (identity tid : String) (rows : List QueueRow) : PositionReport :=
  match findWaiting identity tid rows with
  | none => .notInQueue
  | some entry =>
    let ahead := rows.filter (fun r => r.ticketTypeId == tid && r.status == "waiting")
    let position := (ahead.filter (fun e => decide (e.position < entry.position))).length + 1
    .inQueue position (position - 1)

/-- The proposed fields of a `PUT /api/events/[id]/tiers` body.  `none` is a
field absent from the body (JS `undefined`); for `description` and `quantity`
an explicit JSON `null` is distinct from absence, hence `Option (Option _)`. -/
structure TierUpdate where
  name : Option String
  description : Option (Option String)
  price : Option Int
  quantity : Option (Option Int)
  perks : Option (List String)
deriving Repr, DecidableEq

/-- The violations list built by the tier-update handler, in source order:
price may only decrease or stay (`price > tier.price` violates), a non-null
quantity may not drop below `sold || 0`, and no current perk may be missing
from the proposed perks list. -/
def tierViolations (tier : TicketTypeRow) (u : TierUpdate) : List String :=
  (match u.price with
   | some p =>
     if tier.price < p then
       ["price can only decrease (current: " ++ toString tier.price ++
        ", requested: " ++ toString p ++ ")"]
     else []
   | none => []) ++
  (match u.quantity with
   | some (some q) =>
     if q < soldVal tier then
       ["quantity cannot be less than sold count (sold: " ++ toString (soldVal tier) ++
        ", requested: " ++ toString q ++ ")"]
     else []
   | some none => []
   | none => []) ++
  (match u.perks with
   | some newPerks =>
     let removed := tier.perks.filter (fun p => !newPerks.contains p)
     if removed.length > 0 then
       ["cannot remove perks: " ++ String.intercalate ", " removed]
     else []
   | none => [])

/-- The `updates` record of the tier-update handler applied to the current
row: every requested field overwrites the current value (only reached when the
violations list is empty, in which case every requested field was accepted). -/
def applyTierUpdate (tier : TicketTypeRow) (u : TierUpdate) : TicketTypeRow :=
  { tier with
    name := u.name.getD tier.name,
    description := u.description.getD tier.description,
    price := u.price.getD tier.price,
    quantity := u.quantity.getD tier.quantity,
    perks := u.perks.getD tier.perks }

/-- Outcome of `PUT /api/events/[id]/tiers` (after auth and tier lookup). -/
inductive UpdateResult where
  | rejected (violations : List String)
  | updated (tier : TicketTypeRow)
deriving Repr, DecidableEq

/-- `PUT /api/events/[id]/tiers` (`src/app/api/events/[id]/tiers/route.ts`),
for an authorized caller and an existing tier: collect the violations; if any,
return 400 with the list and write nothing; otherwise apply all requested
fields (an empty update returns the tier unchanged with "No changes"). -/
def updateTier (tier : TicketTypeRow) (u : TierUpdate) : UpdateResult × TicketTypeRow :=
  let vs := tierViolations tier u
  if vs.isEmpty then
    (.updated (applyTierUpdate tier u), applyTierUpdate tier u)
  else
    (.rejected vs, tier)

/-- Digits used by JavaScript's `Number.prototype.toString(36)`. -/
def base36Digit (n : Nat) : Char :=
  "0123456789abcdefghijklmnopqrstuvwxyz".toList.getD n '0'

/-- Fuel-driven digit expansion for base 36 (the fuel `n + 1` always
suffices, since the argument shrinks by a factor of 36 each step). -/
def base36Go : Nat → Nat → List Char
  | 0, _ => []
  | fuel + 1, n =>
    if n < 36 then [base36Digit n]
    else base36Go fuel (n / 36) ++ [base36Digit (n % 36)]

/-- `n.toString(36)` of a non-negative integer, as used in the webhook's
ticket-id generation `tkt_${Date.now().toString(36)}_${i}`. -/
def toBase36 (n : Nat) : String :=
  String.mk (base36Go (n + 1) n)

/-- UTF-8 encoding of one code point. -/
def utf8Char (c : Char) : List Nat :=
  let n := c.toNat
  if n < 0x80 then [n]
  else if n < 0x800 then [0xC0 + n / 0x40, 0x80 + n % 0x40]
  else if n < 0x10000 then
    [0xE0 + n / 0x1000, 0x80 + n / 0x40 % 0x40, 0x80 + n % 0x40]
  else
    [0xF0 + n / 0x40000, 0x80 + n / 0x1000 % 0x40, 0x80 + n / 0x40 % 0x40, 0x80 + n % 0x40]

/-- The byte sequence `Buffer.from(s)` (UTF-8). -/
def utf8Bytes (s : String) : List Nat :=
  (s.toList.map utf8Char).flatten

/-- The base64 alphabet. -/
def base64Chars : List Char :=
  "ABCDEFGHIJKLMNOPQRSTUVWXYZabcdefghijklmnopqrstuvwxyz0123456789+/".toList

/-- One base64 digit. -/
def base64Char (n : Nat) : Char :=
  base64Chars.getD n 'A'

/-- `Buffer.from(s).toString('base64')`: standard base64 with `=` padding. -/
def base64Encode : List Nat → String
  | [] => ""
  | [a] =>
    String.mk [base64Char (a / 4), base64Char (a % 4 * 16)] ++ "=="
  | [a, b] =>
    String.mk [base64Char (a / 4), base64Char (a % 4 * 16 + b / 16),
      base64Char (b % 16 * 4)] ++ "="
  | a :: b :: c :: rest =>
    String.mk [base64Char (a / 4), base64Char (a % 4 * 16 + b / 16),
      base64Char (b % 16 * 4 + c / 64), base64Char (c % 64)] ++ base64Encode rest

/-- Whether the first list is a leading segment of the second. -/
def leadsWith : List Char → List Char → Bool
  | [], _ => true
  | _ :: _, [] => false
  | p :: ps, c :: cs => p == c && leadsWith ps cs

/-- Replace the first occurrence of `pat` in the character list by `rep`. -/
def replaceFirstChars (pat rep : List Char) : List Char → List Char
  | [] => []
  | c :: cs =>
    if leadsWith pat (c :: cs) then rep ++ (c :: cs).drop pat.length
    else c :: replaceFirstChars pat rep cs

/-- JavaScript `s.replace(pat, rep)` with a string pattern: replaces only the
first occurrence (none at all if `pat` does not occur). -/
def replaceFirst (s pat rep : String) : String :=
  String.mk (replaceFirstChars pat.toList rep.toList s.toList)

/-- The webhook's fallback owner identity when the profile service fails:
`did:email:` + the email with its first `@` replaced by `_at_`. -/
def jsFallbackDid (email : String) : String :=
  "did:email:" ++ replaceFirst email "@" "_at_"

/-- `getOrCreateGuestDid`: an external `fetch` to the profile service, modelled
as an oracle `resolve`; `none` is the failure path, which falls back to the
deterministic email-derived DID. -/
def resolveOwnerDid (resolve : String → Option String) (email : String) : String :=
  match resolve email with
  | some d => d
  | none => jsFallbackDid email

/-- One iteration of the webhook's ticket-creation loop
(`handleCheckoutCompleted`, `src/unnamed/part_006`): ticket id
`tkt_${Date.now().toString(36)}_${i}`, signature
`base64(ticketId:eventDid:customerEmail:Date.now())` — the placeholder scheme
the source comments as "simple signature (in production, use event's
keypair)".  `Date.now()` readings within one request are the parameter `now`.
JS computes `pricePaid = amountTotal / quantity` in floating point; no claim
touches that column and it is modelled as integer division. -/
def mintTicket (ev : EventRow) (tierId email ownerDid : String)
    (amountTotal qty : Int) (currency : String) (payRef : String)
    (now : Nat) (i : Nat) : TicketRow :=
  let ticketId := "tkt_" ++ toBase36 now ++ "_" ++ Nat.repr i
  { id := ticketId, eventId := ev.id, ticketTypeId := tierId,
    ownerDid := some ownerDid, originalOwnerDid := some ownerDid,
    pricePaid := some (amountTotal / qty), currency := some currency.toUpper,
    paymentId := some payRef, status := "valid",
    heldBy := none, heldUntil := none,
    signature := some (base64Encode (utf8Bytes
      (ticketId ++ ":" ++ ev.did ++ ":" ++ email ++ ":" ++ Nat.repr now))) }

/-- The webhook's `handleCheckoutCompleted` (`src/unnamed/part_006`), for an
event and tier that exist.  `quantityMeta` is the `parseInt(metadata.quantity)`
result (`none` = NaN); the source applies `|| 1`, so NaN and `0` become `1`.
`payRef = paymentId || sessionId`.  The handler inserts `quantity` fresh
ticket rows (it looks up no existing rows — there is no duplicate-payment
check) and then runs `UPDATE ticket_types SET sold = sold + quantity`, whose
SQL NULL propagation is `Option.map`.  Returns the updated tier, the updated
tickets table, and the created rows. -/
def handleCheckoutCompleted (resolve : String → Option String) (now : Nat)
    (ev : EventRow) (tier : TicketTypeRow) (tks : List TicketRow)
    (customerEmail : String) (amountTotal : Int) (currency payRef : String)
    (quantityMeta : Option Int) :
    TicketTypeRow × List TicketRow × List TicketRow :=
  let quantity : Int :=
    match quantityMeta with
    | none => 1
    | some 0 => 1
    | some n => n
  let ownerDid := resolveOwnerDid resolve customerEmail
  let created := (List.range quantity.toNat).map
    (mintTicket ev tier.id customerEmail ownerDid amountTotal quantity currency payRef now)
  ({ tier with sold := tier.sold.map (· + quantity) }, tks ++ created, created)

/-- The per-tier capacity-ledger invariant of spec §3: when the tier's
`quantity` (capacity) is set, `sold + (rows currently in status held) ≤
quantity`.  Decidable so that concrete states can be checked by evaluation. -/
def tierInvariant (tier : TicketTypeRow) (tks : List TicketRow) : Bool :=
  match tier.quantity with
  | some c => decide (soldVal tier + (heldCount tier.id tks : Int) ≤ c)
  | none => true

/-- Modelled from the spec: symbolic signature values for the transfer ledger.
The repository's `src/` holds the `ticket_transfers` table declaration
(`src/src/db/schema.ts`) but no transfer route handler, so the `transfer`
operation is modelled from spec §4.5 and §3.  A signature value records the
signing identity and the signed payload; verification checks both (ideal
unforgeability). -/
structure SigValue where
  signer : String
  payload : String
deriving Repr, DecidableEq

/-- Modelled from the spec: the canonical transfer payload
`{ticketId, fromIdentity, toIdentity, timestamp}` in a fixed order and
encoding (spec §4.5). -/
def transferPayload (ticketId fromIdentity toIdentity : String) (timestamp : Nat) : String :=
  ticketId ++ ":" ++ fromIdentity ++ ":" ++ toIdentity ++ ":" ++ Nat.repr timestamp

/-- Modelled from the spec: signature verification against an identity's key,
in the symbolic model. -/
def verifySig (sig : SigValue) (identity payload : String) : Bool :=
  sig.signer == identity && sig.payload == payload

/-- A row of the `ticket_transfers` table (`src/src/db/schema.ts`), with the
symbolic signature value. -/
structure TransferRow where
  id : String
  ticketId : String
  fromDid : String
  toDid : String
  transferredAt : Nat
  signature : SigValue
deriving Repr, DecidableEq

/-- Modelled from the spec (§3): the ticket's current derived owner — the `to`
of the latest Transfer for the ticket (the transfer log is append-only, so the
latest is the last matching row), or `originalOwnerDid` if none exists. -/
def currentOwner (t : TicketRow) (transfers : List TransferRow) : Option String :=
  match (transfers.filter (fun x => x.ticketId == t.id)).getLast? with
  | some x => some x.toDid
  | none => t.originalOwnerDid

/-- Outcome of the spec-modelled `transfer`. -/
inductive TransferResult where
  | notOwner
  | invalidSignature
  | ticketNotTransferable
  | transferred (row : TransferRow)
deriving Repr, DecidableEq

/-- Modelled from the spec (§4.5): `transfer(ticketId, fromIdentity,
toIdentity, signature)`.  Preconditions per the spec: `fromIdentity` equals
the current derived owner, the signature verifies against `fromIdentity` over
the canonical payload, and the ticket status is `valid`.  The spec fixes no
precedence among failing preconditions; this model checks ownership, then the
signature, then the status.  On success it appends the immutable Transfer row
and updates the stored `ownerDid` (the denormalized cache of §9). -/
def transferTicket (t : TicketRow) (transfers : List TransferRow)
    (fromIdentity toIdentity : String) (sig : SigValue) (newId : String) (ts : Nat) :
    TransferResult × TicketRow × List TransferRow :=
  if currentOwner t transfers ≠ some fromIdentity then
    (.notOwner, t, transfers)
  else if !verifySig sig fromIdentity (transferPayload t.id fromIdentity toIdentity ts) then
    (.invalidSignature, t, transfers)
  else if t.status ≠ "valid" then
    (.ticketNotTransferable, t, transfers)
  else
    let row : TransferRow :=
      { id := newId, ticketId := t.id, fromDid := fromIdentity,
        toDid := toIdentity, transferredAt := ts, signature := sig }
    (.transferred row, { t with ownerDid := some toIdentity }, transfers ++ [row])

/-! ### Helper lemmas -/

theorem heldCount_sweepExpired (now : Nat) (tid : String) (tks : List TicketRow) :
    heldCount tid (sweepExpired now tid tks) = activeHeldCount now tid tks := by
  unfold heldCount sweepExpired activeHeldCount
  rw [List.countP_map]
  refine List.countP_congr (fun r _ => ?_)
  simp only [Function.comp_apply, sweepRow]
  by_cases h1 : (r.ticketTypeId == tid) = true <;>
    by_cases h2 : (r.status == "held") = true <;>
      by_cases h3 : expiredAt now r = true <;>
        simp [h1, h2, h3]

theorem activeHeldCount_le (now : Nat) (tid : String) (tks : List TicketRow) :
    activeHeldCount now tid tks ≤ heldCount tid tks := by
  unfold activeHeldCount heldCount
  refine List.countP_mono_left (fun r _ h => ?_)
  rw [Bool.and_eq_true] at h
  exact h.1

theorem heldCount_append (tid : String) (l₁ l₂ : List TicketRow) :
    heldCount tid (l₁ ++ l₂) = heldCount tid l₁ + heldCount tid l₂ :=
  List.countP_append _ _ _

theorem heldCount_newHoldRow (tier : TicketTypeRow) (identity newId : String) (hu : Nat) :
    heldCount tier.id [newHoldRow tier identity newId hu] = 1 := by
  simp [heldCount, newHoldRow, List.countP_cons]

theorem heldCount_filter_le (tid : String) (q : TicketRow → Bool) (tks : List TicketRow) :
    heldCount tid (tks.filter q) ≤ heldCount tid tks := by
  unfold heldCount
  rw [List.countP_filter]
  refine List.countP_mono_left (fun r _ h => ?_)
  rw [Bool.and_eq_true] at h
  exact h.1

theorem foldl_max_init_le (l : List Int) (a : Int) : a ≤ l.foldl max a := by
  induction l generalizing a with
  | nil => exact le_refl a
  | cons b l ih => exact le_trans (le_max_left a b) (ih (max a b))

theorem le_foldl_max (l : List Int) (a x : Int) (hx : x ∈ l) : x ≤ l.foldl max a := by
  induction l generalizing a with
  | nil => cases hx
  | cons b l ih =>
    rcases List.mem_cons.mp hx with rfl | hmem
    · exact le_trans (le_max_right a x) (foldl_max_init_le l (max a x))
    · exact ih (max a b) hmem

theorem position_le_maxPositionFor (tid : String) (rows : List QueueRow)
    (r : QueueRow) (hmem : r ∈ rows) (htid : r.ticketTypeId = tid) :
    r.position ≤ maxPositionFor tid rows := by
  have hmem' : r.position ∈ (rows.filter (fun r => r.ticketTypeId == tid)).map (fun r => r.position) := by
    exact List.mem_map_of_mem _ (List.mem_filter.mpr ⟨hmem, by simp [htid]⟩)
  unfold maxPositionFor
  cases hcase : (rows.filter (fun r => r.ticketTypeId == tid)).map (fun r => r.position) with
  | nil => rw [hcase] at hmem'; cases hmem'
  | cons p ps =>
    rw [hcase] at hmem'
    rcases List.mem_cons.mp hmem' with h | h
    · exact h ▸ foldl_max_init_le ps p
    · exact le_foldl_max ps p _ h

theorem filter_eq_singleton_find? {α : Type} (p : α → Bool) (l : List α) (x : α)
    (h : l.filter p = [x]) : l.find? p = some x := by
  induction l with
  | nil => simp at h
  | cons a l ih =>
    by_cases ha : p a = true
    · rw [List.filter_cons_of_pos ha] at h
      obtain ⟨rfl, -⟩ := List.cons_eq_cons.mp h
      simp [List.find?, ha]
    · rw [List.filter_cons_of_neg ha] at h
      simp only [List.find?]
      rw [Bool.not_eq_true] at ha
      rw [ha]
      exact ih h

/-! ### Shared concrete fixtures -/

def evA : EventRow := ⟨"e1", "did:evt:1"⟩

/-- A sold-out tier: capacity 1, one ticket sold. -/
def tierSoldOut : TicketTypeRow := ⟨"t1", "e1", "GA", none, 100, "USD", some 1, some 1, []⟩

/-- A tier with capacity 0 and nothing sold. -/
def tierZero : TicketTypeRow := ⟨"t1", "e1", "GA", none, 100, "USD", some 0, some 0, []⟩

/-- A tier with capacity 2 and nothing sold. -/
def tierOpen : TicketTypeRow := ⟨"t1", "e1", "GA", none, 100, "USD", some 2, some 0, []⟩

/-- A hold on `tierOpen` by identity `X` that expires at time 5. -/
def holdX5 : TicketRow :=
  ⟨"h1", "e1", "t1", none, none, none, none, none, "held", some "X", some 5, none⟩

/-! ### C1 — capacity invariant -/

/-- C1 (amended): for every tier with a non-null capacity `C > 0`, the
invariant `sold + activeHolds ≤ C` is preserved by `createHold` and by
`releaseHold`, and the checkout route never mutates the tier or ticket tables;
but the mint operation (the payment webhook) does not preserve it — it
increments `sold` with no capacity check, so from an invariant-satisfying
state it can drive the committed total past `C`. -/
theorem c1_capacity_invariant :
    (∀ now identity tier tks newId holdUntil C,
        tier.quantity = some C → 0 < C → tierInvariant tier tks = true →
        tierInvariant tier (createHold now identity tier tks newId holdUntil).2 = true)
    ∧ (∀ identity ticketId tier tks, tierInvariant tier tks = true →
        tierInvariant tier (releaseHold identity ticketId tks).2 = true)
    ∧ (∀ tier tks quantityReq, (checkout tier tks quantityReq).2 = (tier, tks))
    ∧ (∃ resolve now ev tier tks email amt cur payRef qm,
        tierInvariant tier tks = true ∧
        tierInvariant
          (handleCheckoutCompleted resolve now ev tier tks email amt cur payRef qm).1
          (handleCheckoutCompleted resolve now ev tier tks email amt cur payRef qm).2.1 = false) := by
  refine ⟨?_, ?_, ?_, ?_⟩
  · intro now identity tier tks newId holdUntil C hq hC hinv
    have hinv' : soldVal tier + (heldCount tier.id tks : Int) ≤ C := by
      unfold tierInvariant at hinv
      rw [hq] at hinv
      exact of_decide_eq_true hinv
    have hswle : heldCount tier.id (sweepExpired now tier.id tks) ≤ heldCount tier.id tks := by
      rw [heldCount_sweepExpired]
      exact activeHeldCount_le now tier.id tks
    unfold createHold
    cases hfind : tks.find? (isHeldRowFor tier.id identity) with
    | some ex => exact hinv
    | none =>
      by_cases hcond : availabilityReject now tier tks = true
      · simp only [hcond, if_true]
        unfold tierInvariant
        rw [hq]
        refine decide_eq_true ?_
        omega
      · rw [Bool.not_eq_true] at hcond
        simp only [hcond]
        rw [if_neg Bool.false_ne_true]
        show tierInvariant tier
          (sweepExpired now tier.id tks ++ [newHoldRow tier identity newId holdUntil]) = true
        have htruthy : quantityTruthy tier = true := by
          unfold quantityTruthy
          rw [hq]
          exact decide_eq_true (by omega)
        have hlt : ¬ (tier.quantity.getD 0 - soldVal tier ≤
            (heldCount tier.id (sweepExpired now tier.id tks) : Int)) := by
          intro hle
          have : availabilityReject now tier tks = true := by
            unfold availabilityReject
            rw [htruthy, decide_eq_true hle]
            rfl
          rw [this] at hcond
          cases hcond
        rw [hq] at hlt
        unfold tierInvariant
        rw [hq]
        refine decide_eq_true ?_
        rw [heldCount_append, heldCount_newHoldRow]
        simp only [Option.getD_some] at hlt
        omega
  · intro identity ticketId tier tks hinv
    unfold releaseHold
    cases hfind : tks.find? (fun r => r.id == ticketId && r.heldBy == some identity && r.status == "held") with
    | none => exact hinv
    | some ex =>
      show tierInvariant tier (tks.filter (fun r => !(r.id == ticketId))) = true
      unfold tierInvariant at hinv ⊢
      cases hq : tier.quantity with
      | none => rfl
      | some c =>
        rw [hq] at hinv
        refine decide_eq_true ?_
        have h1 := heldCount_filter_le tier.id (fun r => !(r.id == ticketId)) tks
        have h2 := of_decide_eq_true hinv
        omega
  · intro tier tks quantityReq
    unfold checkout
    cases tier.quantity with
    | none => rfl
    | some q =>
      dsimp only
      split
      · rfl
      · rfl
  · exact ⟨fun _ => none, 0, evA, tierSoldOut, [], "a@b", 100, "usd", "p1", some 1,
      by decide, by decide⟩

/-- C1 counterexample to the claim as stated: (a) from the invariant-satisfying
state "capacity 1, sold 1, no holds", one mint of quantity 1 yields `sold = 2 >
1`; (b) from the invariant-satisfying state "capacity 0, nothing sold, no
holds", a `createHold` succeeds (the JS capacity test treats `quantity = 0` as
falsy) and yields one held row, `0 + 1 > 0`. -/
theorem c1_counterexample :
    (tierInvariant tierSoldOut [] = true ∧
      tierInvariant
        (handleCheckoutCompleted (fun _ => none) 0 evA tierSoldOut [] "a@b" 100 "usd" "p1" (some 1)).1
        (handleCheckoutCompleted (fun _ => none) 0 evA tierSoldOut [] "a@b" 100 "usd" "p1" (some 1)).2.1 = false)
    ∧ (tierInvariant tierZero [] = true ∧
      tierInvariant tierZero (createHold 0 "X" tierZero [] "n1" 10).2 = false) := by
  refine ⟨⟨by decide, by decide⟩, ⟨by decide, by decide⟩⟩

/-- Witness for `c1_capacity_invariant` at concrete inputs. -/
theorem c1_capacity_invariant_witness :
    tierInvariant tierOpen (createHold 0 "X" tierOpen [] "n1" 10).2 = true ∧
    tierInvariant tierOpen (releaseHold "X" "h1" [holdX5]).2 = true :=
  ⟨c1_capacity_invariant.1 0 "X" tierOpen [] "n1" 10 2 rfl (by decide) (by decide),
   c1_capacity_invariant.2.1 "X" "h1" tierOpen [holdX5] (by decide)⟩

/-! ### C2 — mint idempotency -/

/-- A tier with plenty of capacity for the webhook-retry scenario. -/
def tierBig : TicketTypeRow := ⟨"t1", "e1", "GA", none, 100, "USD", some 500, some 0, []⟩

/-- The state after one delivery of a `checkout.completed` payload with
payment reference `pay_123` and quantity 2, at time 1000. -/
def mintOnce : TicketTypeRow × List TicketRow × List TicketRow :=
  handleCheckoutCompleted (fun _ => none) 1000 evA tierBig [] "a@b" 2000 "usd" "pay_123" (some 2)

/-- The state after the pay service retries the identical payload (same
payment reference `pay_123`) at time 2000. -/
def mintRetried : TicketTypeRow × List TicketRow × List TicketRow :=
  handleCheckoutCompleted (fun _ => none) 2000 evA mintOnce.1 mintOnce.2.1 "a@b" 2000 "usd" "pay_123" (some 2)

/-- C2: the webhook performs no duplicate-payment check.  Delivering the same
`checkout.completed` payload (payment reference `pay_123`, quantity 2) twice
leaves `sold = 4` (incremented by 2 twice, not once), four ticket rows in the
table, and the second call's created ticket set differs from the first's —
contradicting the claimed idempotency on the payment reference. -/
theorem c2_webhook_not_idempotent :
    mintRetried.1.sold = some 4
    ∧ mintRetried.2.1.length = 4
    ∧ mintRetried.2.2 ≠ mintOnce.2.2 := by
  refine ⟨by decide, by decide, by decide⟩

/-! ### C3 — queue position monotonicity -/

/-- C3 counterexample to the claim as stated: `X` joins tier `t1` and is
assigned position 1; `X` leaves (the row is deleted); `Y` then joins and is
assigned position 1 again — an already-assigned position is reused after the
entry holding it leaves, so positions are not "one greater than the maximum
ever assigned" and not all-distinct across the sequence. -/
theorem c3_counterexample :
    (joinQueue "X" "t1" "q1" []).1 = .joined ⟨"q1", "t1", "X", 1, "waiting"⟩
    ∧ (leaveQueue "X" "t1" (joinQueue "X" "t1" "q1" []).2).2 = []
    ∧ (joinQueue "Y" "t1" "q2"
        (leaveQueue "X" "t1" (joinQueue "X" "t1" "q1" []).2).2).1
      = .joined ⟨"q2", "t1", "Y", 1, "waiting"⟩ := by
  refine ⟨by decide, by decide, by decide⟩

/-- C3 (amended): each successful join assigns a position one greater than the
maximum position among the tier's rows *currently in the table* (0 when there
are none), so the new position is strictly greater than every currently
present position; but since leaving deletes the row, a departed entry's
position can be assigned again. -/
theorem c3_join_position (rows : List QueueRow) (identity tid newId : String)
    (entry : QueueRow)
    (h : (joinQueue identity tid newId rows).1 = .joined entry) :
    entry.position = maxPositionFor tid rows + 1
    ∧ ∀ r ∈ rows, r.ticketTypeId = tid → r.position < entry.position := by
  unfold joinQueue at h
  cases hfind : findWaiting identity tid rows with
  | some ex =>
    rw [hfind] at h
    cases h
  | none =>
    rw [hfind] at h
    injection h with h'
    subst h'
    refine ⟨rfl, fun r hmem htid => ?_⟩
    have hle := position_le_maxPositionFor tid rows r hmem htid
    show r.position < maxPositionFor tid rows + 1
    omega

/-- Witness for `c3_join_position`: joining a tier whose single present row
has position 3 assigns position 4. -/
theorem c3_join_position_witness :
    (QueueRow.mk "q2" "t1" "Y" 4 "waiting").position
      = maxPositionFor "t1" [QueueRow.mk "q1" "t1" "X" 3 "waiting"] + 1 :=
  (c3_join_position [⟨"q1", "t1", "X", 3, "waiting"⟩] "Y" "t1" "q2"
    ⟨"q2", "t1", "Y", 4, "waiting"⟩ (by decide)).1

/-! ### C4 — reported queue position after a leave -/

/-- The queue after X, Y, Z join tier `t1` in that order. -/
def queueXYZ : List QueueRow :=
  (joinQueue "Z" "t1" "q3"
    (joinQueue "Y" "t1" "q2"
      (joinQueue "X" "t1" "q1" []).2).2).2

/-- The queue after Y then leaves. -/
def queueAfterLeave : List QueueRow :=
  (leaveQueue "Y" "t1" queueXYZ).2

/-- C4 counterexample to the claim as stated: X, Y, Z join (reporting
positions 1, 2, 3); after Y leaves, a position query by Z reports 2, not the
claimed 3 — the GET handler re-ranks among the remaining waiting entries. -/
theorem c4_counterexample :
    (joinQueue "X" "t1" "q1" []).1 = .joined ⟨"q1", "t1", "X", 1, "waiting"⟩
    ∧ (joinQueue "Y" "t1" "q2" (joinQueue "X" "t1" "q1" []).2).1
      = .joined ⟨"q2", "t1", "Y", 2, "waiting"⟩
    ∧ (joinQueue "Z" "t1" "q3" (joinQueue "Y" "t1" "q2" (joinQueue "X" "t1" "q1" []).2).2).1
      = .joined ⟨"q3", "t1", "Z", 3, "waiting"⟩
    ∧ queuePositionOf "Z" "t1" queueAfterLeave ≠ .inQueue 3 2 := by
  refine ⟨by decide, by decide, by decide, by decide⟩

/-- C4 (amended): in the X, Y, Z scenario, after Y leaves, X still reports
position 1 but Z reports position 2: the reported position is the rank among
the currently waiting entries (one plus the number of waiting entries with a
smaller stored position), so reports renumber when an earlier entry leaves,
while the stored `position` column itself is unchanged (Z's row still holds
position 3). -/
theorem c4_rank_after_leave :
    queuePositionOf "X" "t1" queueAfterLeave = .inQueue 1 0
    ∧ queuePositionOf "Z" "t1" queueAfterLeave = .inQueue 2 1
    ∧ queueAfterLeave.filter (fun r => r.did == "Z") = [⟨"q3", "t1", "Z", 3, "waiting"⟩] := by
  refine ⟨by decide, by decide, by decide⟩

/-! ### C5 — AlreadyHeld on a second hold request -/

/-- C5: if the caller's only `held` row for the tier is `h` and `h` is
unexpired (an active hold), a second `createHold` returns the 409 conflict
carrying that existing hold, inserts no row and reserves no capacity — the
table is returned unchanged. -/
theorem c5_second_hold_rejected (now : Nat) (identity : String) (tier : TicketTypeRow)
    (tks : List TicketRow) (newId : String) (holdUntil : Nat) (h : TicketRow) (u : Nat)
    (hone : tks.filter (isHeldRowFor tier.id identity) = [h])
    (_hu : h.heldUntil = some u) (_hactive : now ≤ u) :
    (createHold now identity tier tks newId holdUntil).1 = .alreadyHeld h
    ∧ (createHold now identity tier tks newId holdUntil).2 = tks := by
  have hfind : tks.find? (isHeldRowFor tier.id identity) = some h :=
    filter_eq_singleton_find? _ tks h hone
  unfold createHold
  rw [hfind]
  exact ⟨rfl, rfl⟩

/-- An unexpired hold on `tierOpen` by identity `X` (expires at 100). -/
def holdX100 : TicketRow :=
  ⟨"h1", "e1", "t1", none, none, none, none, none, "held", some "X", some 100, none⟩

/-- Witness for `c5_second_hold_rejected` at a concrete state. -/
theorem c5_second_hold_rejected_witness :
    (createHold 10 "X" tierOpen [holdX100] "n1" 500).1 = .alreadyHeld holdX100
    ∧ (createHold 10 "X" tierOpen [holdX100] "n1" 500).2 = [holdX100] :=
  c5_second_hold_rejected 10 "X" tierOpen [holdX100] "n1" 500 holdX100 100
    (by decide) (by decide) (by decide)

/-! ### C6 — expired holds are swept before the availability check -/

/-- C6: on any `createHold` that passes the existing-hold check (so the
availability decision is actually evaluated): the holds counted by the
availability check are exactly the tier's unexpired held rows of the input
state; every strictly-expired held row of the tier is released (status
`available`, `heldBy` cleared) in the resulting table; and the request is
rejected for capacity exactly when the tier's quantity is truthy and
`quantity - sold` does not exceed the *unexpired* hold count — expired holds
are never counted against capacity. -/
theorem c6_sweep_before_check (now : Nat) (identity : String) (tier : TicketTypeRow)
    (tks : List TicketRow) (newId : String) (holdUntil : Nat)
    (hfind : tks.find? (isHeldRowFor tier.id identity) = none) :
    heldCount tier.id (sweepExpired now tier.id tks) = activeHeldCount now tier.id tks
    ∧ (∀ r ∈ tks, r.ticketTypeId = tier.id → r.status = "held" → expiredAt now r = true →
        sweepRow now tier.id r ∈ (createHold now identity tier tks newId holdUntil).2
        ∧ (sweepRow now tier.id r).status = "available"
        ∧ (sweepRow now tier.id r).heldBy = none)
    ∧ ((createHold now identity tier tks newId holdUntil).1
        = .noAvailability (activeHeldCount now tier.id tks + 1)
      ↔ quantityTruthy tier = true
        ∧ tier.quantity.getD 0 - soldVal tier ≤ (activeHeldCount now tier.id tks : Int)) := by
  refine ⟨heldCount_sweepExpired now tier.id tks, ?_, ?_⟩
  · intro r hmem h1 h2 h3
    have hcondr : (r.ticketTypeId == tier.id && r.status == "held" && expiredAt now r) = true := by
      simp [h1, h2, h3]
    have hmem' : sweepRow now tier.id r ∈ sweepExpired now tier.id tks :=
      List.mem_map_of_mem _ hmem
    refine ⟨?_, ?_, ?_⟩
    · unfold createHold
      rw [hfind]
      by_cases hc : availabilityReject now tier tks = true
      · rw [if_pos hc]
        exact hmem'
      · rw [if_neg hc]
        exact List.mem_append_left _ hmem'
    · unfold sweepRow
      rw [if_pos hcondr]
    · unfold sweepRow
      rw [if_pos hcondr]
  · unfold createHold
    rw [hfind]
    by_cases hc : availabilityReject now tier tks = true
    · rw [if_pos hc]
      have hc' := hc
      unfold availabilityReject at hc'
      rw [Bool.and_eq_true] at hc'
      constructor
      · intro _
        exact ⟨hc'.1, by
          have := of_decide_eq_true hc'.2
          rw [heldCount_sweepExpired] at this
          exact this⟩
      · intro _
        show HoldResult.noAvailability (heldCount tier.id (sweepExpired now tier.id tks) + 1)
          = .noAvailability (activeHeldCount now tier.id tks + 1)
        rw [heldCount_sweepExpired]
    · rw [if_neg hc]
      constructor
      · intro habs
        cases habs
      · intro ⟨ht, hle⟩
        exfalso
        apply hc
        unfold availabilityReject
        rw [ht, Bool.true_and]
        refine decide_eq_true ?_
        rw [heldCount_sweepExpired]
        exact hle

/-- Witness for `c6_sweep_before_check`: identity `Y` requests a hold on
`tierOpen` while the only row is `X`'s hold that expired at time 5. -/
theorem c6_sweep_before_check_witness :
    heldCount tierOpen.id (sweepExpired 10 tierOpen.id [holdX5])
      = activeHeldCount 10 tierOpen.id [holdX5] :=
  (c6_sweep_before_check 10 "Y" tierOpen [holdX5] "n1" 500 (by decide)).1

/-! ### C7 — all-or-nothing tier update -/

/-- C7: the tier update is all-or-nothing under the append-only rules.  If any
requested field violates a rule (price increase, non-null quantity below
`sold`, or a removed perk), the whole update is rejected with the violations
list and the tier is returned completely unchanged; if no requested field
violates a rule, every requested field is applied. -/
theorem c7_update_all_or_nothing (tier : TicketTypeRow) (u : TierUpdate) :
    (tierViolations tier u ≠ [] →
      (updateTier tier u).1 = .rejected (tierViolations tier u)
      ∧ (updateTier tier u).2 = tier)
    ∧ (tierViolations tier u = [] →
      (∀ n, u.name = some n → (updateTier tier u).2.name = n)
      ∧ (∀ d, u.description = some d → (updateTier tier u).2.description = d)
      ∧ (∀ p, u.price = some p → (updateTier tier u).2.price = p)
      ∧ (∀ q, u.quantity = some q → (updateTier tier u).2.quantity = q)
      ∧ (∀ ps, u.perks = some ps → (updateTier tier u).2.perks = ps)) := by
  constructor
  · intro hne
    unfold updateTier
    rw [if_neg (by simp [List.isEmpty_iff, hne])]
    exact ⟨rfl, rfl⟩
  · intro he
    unfold updateTier
    rw [if_pos (by simp [List.isEmpty_iff, he])]
    refine ⟨?_, ?_, ?_, ?_, ?_⟩ <;>
      · intro x hx
        simp [applyTierUpdate, hx]

/-- An update that tries to raise the price of `tierOpen` from 100 to 200. -/
def priceRaise : TierUpdate := ⟨none, none, some 200, none, none⟩

/-- Witness for `c7_update_all_or_nothing`: the price raise is rejected with
its violations list and the tier is unchanged. -/
theorem c7_update_all_or_nothing_witness :
    (updateTier tierOpen priceRaise).1 = .rejected (tierViolations tierOpen priceRaise)
    ∧ (updateTier tierOpen priceRaise).2 = tierOpen :=
  (c7_update_all_or_nothing tierOpen priceRaise).1 (by decide)

/-! ### C8 — ticket signature scheme -/

/-- C8 counterexample to the claim as stated: two webhook runs at the same
time with the two distinct purchase emails `a@b_at_c` and `a_at_b@c` produce
tickets with identical ticket ids, identical owner DIDs (the fallback
`did:email:a_at_b_at_c` collides) and identical issuance time, yet different
stored signatures — so the signed bytes are not a function of
`{ticketId, eventDid, ownerDid, issuedAt}` alone, and the signature is not a
private-key signature over that payload. -/
theorem c8_counterexample :
    (handleCheckoutCompleted (fun _ => none) 5 evA tierOpen [] "a@b_at_c" 100 "usd" "s1" (some 1)).2.2.map
        (fun t => t.id)
      = (handleCheckoutCompleted (fun _ => none) 5 evA tierOpen [] "a_at_b@c" 100 "usd" "s1" (some 1)).2.2.map
        (fun t => t.id)
    ∧ (handleCheckoutCompleted (fun _ => none) 5 evA tierOpen [] "a@b_at_c" 100 "usd" "s1" (some 1)).2.2.map
        (fun t => t.ownerDid)
      = (handleCheckoutCompleted (fun _ => none) 5 evA tierOpen [] "a_at_b@c" 100 "usd" "s1" (some 1)).2.2.map
        (fun t => t.ownerDid)
    ∧ (handleCheckoutCompleted (fun _ => none) 5 evA tierOpen [] "a@b_at_c" 100 "usd" "s1" (some 1)).2.2.map
        (fun t => t.signature)
      ≠ (handleCheckoutCompleted (fun _ => none) 5 evA tierOpen [] "a_at_b@c" 100 "usd" "s1" (some 1)).2.2.map
        (fun t => t.signature) := by
  refine ⟨by decide, by decide, by decide⟩

/-- C8 (amended): the stored signature of every ticket created by the webhook
is the base64 encoding of the UTF-8 bytes of the string
`ticketId:eventDid:customerEmail:now` — it is a function of the ticket id, the
event DID, the purchaser's raw email address (not the owner DID) and the
wall-clock reading, and involves no private key; the owner DID is the profile
service's answer or the email-derived fallback. -/
theorem c8_signature_scheme (resolve : String → Option String) (now : Nat)
    (ev : EventRow) (tier : TicketTypeRow) (tks : List TicketRow)
    (email : String) (amt : Int) (cur payRef : String) (qm : Option Int) (i : Nat)
    (hi : i < ((handleCheckoutCompleted resolve now ev tier tks email amt cur payRef qm).2.2).length) :
    ((handleCheckoutCompleted resolve now ev tier tks email amt cur payRef qm).2.2)[i]?.map
        (fun t => t.signature)
      = some (some (base64Encode (utf8Bytes
          ("tkt_" ++ toBase36 now ++ "_" ++ Nat.repr i ++ ":" ++ ev.did ++ ":" ++
            email ++ ":" ++ Nat.repr now))))
    ∧ ((handleCheckoutCompleted resolve now ev tier tks email amt cur payRef qm).2.2)[i]?.map
        (fun t => t.ownerDid)
      = some (some (resolveOwnerDid resolve email)) := by
  simp only [handleCheckoutCompleted, List.length_map, List.length_range] at hi
  simp only [handleCheckoutCompleted, List.getElem?_map, List.getElem?_range hi]
  constructor
  · simp [mintTicket]
  · simp [mintTicket]

/-- Witness for `c8_signature_scheme` at a one-ticket mint. -/
theorem c8_signature_scheme_witness :
    ((handleCheckoutCompleted (fun _ => none) 5 evA tierOpen [] "a@b" 100 "usd" "s1" (some 1)).2.2)[0]?.map
        (fun t => t.signature)
      = some (some (base64Encode (utf8Bytes
          ("tkt_" ++ toBase36 5 ++ "_" ++ Nat.repr 0 ++ ":" ++ evA.did ++ ":" ++
            "a@b" ++ ":" ++ Nat.repr 5))))
    ∧ ((handleCheckoutCompleted (fun _ => none) 5 evA tierOpen [] "a@b" 100 "usd" "s1" (some 1)).2.2)[0]?.map
        (fun t => t.ownerDid)
      = some (some (resolveOwnerDid (fun _ => none) "a@b")) :=
  c8_signature_scheme (fun _ => none) 5 evA tierOpen [] "a@b" 100 "usd" "s1" (some 1) 0 (by decide)

/-! ### C9 — transfer requires the current owner's signature -/

/-- C9: a transfer request whose signature was produced by any identity other
than the ticket's current derived owner (the `to` of the latest Transfer, or
`originalOwnerDid` if none) is rejected with `NotOwner` or `InvalidSignature`,
and the ticket and the transfer log are returned unchanged. -/
theorem c9_transfer_rejected (t : TicketRow) (transfers : List TransferRow)
    (fromIdentity toIdentity : String) (sig : SigValue) (newId : String) (ts : Nat)
    (ownr : String) (hown : currentOwner t transfers = some ownr)
    (hsig : sig.signer ≠ ownr) :
    ((transferTicket t transfers fromIdentity toIdentity sig newId ts).1 = .notOwner
     ∨ (transferTicket t transfers fromIdentity toIdentity sig newId ts).1 = .invalidSignature)
    ∧ (transferTicket t transfers fromIdentity toIdentity sig newId ts).2.1 = t
    ∧ (transferTicket t transfers fromIdentity toIdentity sig newId ts).2.2 = transfers := by
  unfold transferTicket
  by_cases hne : currentOwner t transfers ≠ some fromIdentity
  · rw [if_pos hne]
    exact ⟨Or.inl rfl, rfl, rfl⟩
  · rw [if_neg hne]
    push_neg at hne
    rw [hown] at hne
    injection hne with h2
    subst h2
    have hver : verifySig sig ownr (transferPayload t.id ownr toIdentity ts) = false := by
      unfold verifySig
      rw [beq_eq_false_iff_ne.mpr hsig]
      rfl
    rw [if_pos (by rw [hver]; rfl)]
    exact ⟨Or.inr rfl, rfl, rfl⟩

/-- A valid ticket originally owned (and still owned) by `did:A`. -/
def ticketA : TicketRow :=
  ⟨"tk1", "e1", "t1", some "did:A", some "did:A", none, none, none, "valid", none, none, some "s"⟩

/-- Witness for `c9_transfer_rejected`: a transfer of `ticketA` signed by
`did:B` (not the owner) is rejected and mutates nothing. -/
theorem c9_transfer_rejected_witness :
    ((transferTicket ticketA [] "did:A" "did:B" ⟨"did:B", "p"⟩ "x1" 7).1 = .notOwner
     ∨ (transferTicket ticketA [] "did:A" "did:B" ⟨"did:B", "p"⟩ "x1" 7).1 = .invalidSignature)
    ∧ (transferTicket ticketA [] "did:A" "did:B" ⟨"did:B", "p"⟩ "x1" 7).2.1 = ticketA
    ∧ (transferTicket ticketA [] "did:A" "did:B" ⟨"did:B", "p"⟩ "x1" 7).2.2 = [] :=
  c9_transfer_rejected ticketA [] "did:A" "did:B" ⟨"did:B", "p"⟩ "x1" 7 "did:A"
    (by decide) (by decide)

/-! ### C10 — capacity-zero tiers -/

/-- C10 counterexample to the claim as stated: tier `tierZero` has quantity
exactly 0; identity `X` has no *active* hold (its only row, `holdX5`, expired
at time 5 and it is now time 10), yet the request is rejected with the
AlreadyHeld conflict (the existing-hold check matches `held` rows regardless
of expiry, and it runs before the sweep), and no row is inserted. -/
theorem c10_counterexample :
    (createHold 10 "X" tierZero [holdX5] "n1" 500).1 = .alreadyHeld holdX5
    ∧ (createHold 10 "X" tierZero [holdX5] "n1" 500).2 = [holdX5] := by
  refine ⟨by decide, by decide⟩

/-- C10 (amended): for a tier with quantity exactly 0, a `createHold` request
from an identity with no `held`-status row on the tier (expired or not — the
conflict check ignores expiry) always succeeds and inserts the new held row:
the JS capacity test treats `quantity = 0` as falsy, exactly like a NULL
(unbounded) quantity, and never returns the no-tickets-available error. -/
theorem c10_zero_capacity_hold (now : Nat) (identity : String) (tier : TicketTypeRow)
    (tks : List TicketRow) (newId : String) (holdUntil : Nat)
    (hq : tier.quantity = some 0)
    (hfind : tks.find? (isHeldRowFor tier.id identity) = none) :
    (createHold now identity tier tks newId holdUntil).1
      = .created (newHoldRow tier identity newId holdUntil)
    ∧ (createHold now identity tier tks newId holdUntil).2
      = sweepExpired now tier.id tks ++ [newHoldRow tier identity newId holdUntil] := by
  have hrej : availabilityReject now tier tks = false := by
    unfold availabilityReject quantityTruthy
    rw [hq]
    simp
  unfold createHold
  rw [hfind]
  rw [if_neg (by rw [hrej]; exact Bool.false_ne_true)]
  exact ⟨rfl, rfl⟩

/-- Witness for `c10_zero_capacity_hold`: identity `Y` (no row at all) gets a
hold on the capacity-0 tier while `X`'s expired hold is swept. -/
theorem c10_zero_capacity_hold_witness :
    (createHold 10 "Y" tierZero [holdX5] "n1" 500).1
      = .created (newHoldRow tierZero "Y" "n1" 500)
    ∧ (createHold 10 "Y" tierZero [holdX5] "n1" 500).2
      = sweepExpired 10 tierZero.id [holdX5] ++ [newHoldRow tierZero "Y" "n1" 500] :=
  c10_zero_capacity_hold 10 "Y" tierZero [holdX5] "n1" 500 (by decide) (by decide)
